import Mathlib

/-!
Verification development for the ran-simulator core: a shallow embedding of
the cell-identity conversions (`pkg/model/types.go`), the UE registry
(`pkg/store/ues/ues.go`) and the KPM service-model handler
(`pkg/servicemodel/kpm`, the file shipped as an unnamed source part),
together with theorems settling the specification claims about them.

Machine integers are embedded as `Nat` with explicit `% 2^w` at the points
where the Go code performs a narrowing conversion.  Go float64 values
(signal strength, coordinates) are embedded as integers: the claims only
assign and compare them, never compute with them.  Pointers are embedded as
indices into an explicit heap so that aliasing of registry-internal records
is captured faithfully.  Randomness (`math/rand`, the random cell source)
is embedded as an oracle of value streams consumed at an explicit cursor.
-/

namespace RanSim

/-! ### Association-list helpers

Go maps are embedded as association lists with unique keys maintained by
`aupdate` (Go map assignment: replace the binding if the key is present,
otherwise add it) and `aremove` (Go `delete`). -/

def alookup {κ α : Type} [DecidableEq κ] (k : κ) : List (κ × α) → Option α
  | [] => none
  | (k', v) :: rest => if k = k' then some v else alookup k rest

def aupdate {κ α : Type} [DecidableEq κ] (k : κ) (v : α) : List (κ × α) → List (κ × α)
  | [] => [(k, v)]
  | (k', v') :: rest => if k = k' then (k, v) :: rest else (k', v') :: aupdate k v rest

def aremove {κ α : Type} [DecidableEq κ] (k : κ) : List (κ × α) → List (κ × α)
  | [] => []
  | (k', v') :: rest => if k = k' then rest else (k', v') :: aremove k rest

theorem alookup_aupdate_self {κ α : Type} [DecidableEq κ] (k : κ) (v : α)
    (l : List (κ × α)) : alookup k (aupdate k v l) = some v := by
  induction l with
  | nil => simp [aupdate, alookup]
  | cons p rest ih =>
    by_cases h : k = p.1
    · simp [aupdate, alookup, h]
    · simp [aupdate, alookup, h, ih]

theorem alookup_aupdate_ne {κ α : Type} [DecidableEq κ] (k k' : κ) (v : α)
    (l : List (κ × α)) (h : k ≠ k') : alookup k (aupdate k' v l) = alookup k l := by
  induction l with
  | nil => simp [aupdate, alookup, h]
  | cons p rest ih =>
    by_cases h' : k' = p.1
    · subst h'
      simp [aupdate, alookup, h]
    · by_cases h2 : k = p.1 <;> simp [aupdate, alookup, h', h2, ih]

/-! ### Cell identity conversions (`pkg/model/types.go`)

`PlmnID`, `EnbID`, `ECI` are `uint32`, `CellID` is `uint8`, `ECGI` and
`GEnbID` are `uint64`; the Go code computes in `uint` (64-bit) and the
final conversion to the declared type narrows modulo the type's width. -/

def mask28 : Nat := 0xfffffff

def mask20 : Nat := 0xfffff00

/-- `ToECI` from `pkg/model/types.go`: `ECI(uint(enbID)<<8 | uint(cid))`. -/
def ToECI (enbID cid : Nat) : Nat := (enbID <<< 8 ||| cid) % 2 ^ 32

/-- `ToECGI` from `pkg/model/types.go`:
`ECGI(uint(plmnID)<<28 | (uint(eci) & mask28))`. -/
def ToECGI (plmnID eci : Nat) : Nat := (plmnID <<< 28 ||| (eci &&& mask28)) % 2 ^ 64

/-- `ToGEnbID` from `pkg/model/types.go`:
`GEnbID(uint(plmnID)<<28 | (uint(enbID) << 8 & mask20))`. -/
def ToGEnbID (plmnID enbID : Nat) : Nat :=
  (plmnID <<< 28 ||| (enbID <<< 8 &&& mask20)) % 2 ^ 64

/-- `GetPlmnID` from `pkg/model/types.go`: `PlmnID(id >> 28)`. -/
def GetPlmnID (id : Nat) : Nat := (id >>> 28) % 2 ^ 32

/-- `GetCellID` from `pkg/model/types.go`: `CellID(id & 0xff)`. -/
def GetCellID (id : Nat) : Nat := (id &&& 0xff) % 2 ^ 8

/-- `GetEnbID` from `pkg/model/types.go`: `EnbID((id & mask20) >> 8)`. -/
def GetEnbID (id : Nat) : Nat := ((id &&& mask20) >>> 8) % 2 ^ 32

/-- `GetECI` from `pkg/model/types.go`: `ECI(id & mask28)`. -/
def GetECI (id : Nat) : Nat := (id &&& mask28) % 2 ^ 32

theorem nat_and_two_pow_sub_one (x k : Nat) : x &&& (2 ^ k - 1) = x % 2 ^ k := by
  apply Nat.eq_of_testBit_eq
  intro i
  simp [Nat.testBit_and, Nat.testBit_mod_two_pow, Nat.testBit_two_pow_sub_one,
    Bool.and_comm]

theorem nat_and_shiftRight (x y k : Nat) :
    (x &&& y) >>> k = (x >>> k) &&& (y >>> k) := by
  apply Nat.eq_of_testBit_eq
  intro i
  simp [Nat.testBit_and, Nat.testBit_shiftRight]

theorem shiftLeft_or_eq_add {a b k : Nat} (hb : b < 2 ^ k) :
    a <<< k ||| b = a * 2 ^ k + b := by
  rw [Nat.shiftLeft_eq, Nat.mul_comm a (2 ^ k), ← Nat.mul_add_lt_is_or hb,
    Nat.mul_comm (2 ^ k) a]

theorem ToECGI_eq {p e : Nat} (hp : p < 2 ^ 32) (he : e < 2 ^ 28) :
    ToECGI p e = p * 2 ^ 28 + e := by
  have hmask : mask28 = 2 ^ 28 - 1 := by decide
  have h1 : e &&& mask28 = e := by
    rw [hmask, nat_and_two_pow_sub_one, Nat.mod_eq_of_lt he]
  have hlt : p * 2 ^ 28 + e < 2 ^ 64 := by
    have h32 : (2 : Nat) ^ 32 = 4294967296 := by norm_num
    have h28 : (2 : Nat) ^ 28 = 268435456 := by norm_num
    have h64 : (2 : Nat) ^ 64 = 18446744073709551616 := by norm_num
    rw [h32] at hp
    rw [h28] at he ⊢
    rw [h64]
    omega
  rw [ToECGI, h1, shiftLeft_or_eq_add he, Nat.mod_eq_of_lt hlt]

theorem ToECI_eq {b c : Nat} (hb : b < 2 ^ 20) (hc : c < 2 ^ 8) :
    ToECI b c = b * 2 ^ 8 + c := by
  have hlt : b * 2 ^ 8 + c < 2 ^ 32 := by
    have h20 : (2 : Nat) ^ 20 = 1048576 := by norm_num
    have h8 : (2 : Nat) ^ 8 = 256 := by norm_num
    have h32 : (2 : Nat) ^ 32 = 4294967296 := by norm_num
    rw [h20] at hb
    rw [h8] at hc ⊢
    rw [h32]
    omega
  rw [ToECI, shiftLeft_or_eq_add hc, Nat.mod_eq_of_lt hlt]

/-- C10: the cell-identity conversions of `pkg/model/types.go` round-trip:
for a PLMN id `p < 2^32` and an ECI `e < 2^28`, `GetPlmnID` and `GetECI`
recover `p` and `e` from `ToECGI p e`; for an EnbID `b < 2^20` and a cell id
`c < 2^8`, `GetEnbID` and `GetCellID` recover `b` and `c` from `ToECI b c`. -/
theorem c10_cell_identity_roundtrip (p e b c : Nat)
    (hp : p < 2 ^ 32) (he : e < 2 ^ 28) (hb : b < 2 ^ 20) (hc : c < 2 ^ 8) :
    GetPlmnID (ToECGI p e) = p ∧ GetECI (ToECGI p e) = e ∧
      GetEnbID (ToECI b c) = b ∧ GetCellID (ToECI b c) = c := by
  have hmask : mask28 = 2 ^ 28 - 1 := by decide
  have hECGI := ToECGI_eq hp he
  have hECI := ToECI_eq hb hc
  have hpow : (0 : Nat) < 2 ^ 28 := Nat.pos_pow_of_pos 28 (by norm_num)
  have hpow8 : (0 : Nat) < 2 ^ 8 := Nat.pos_pow_of_pos 8 (by norm_num)
  refine ⟨?_, ?_, ?_, ?_⟩
  · rw [GetPlmnID, hECGI, Nat.shiftRight_eq_div_pow, Nat.mul_comm p (2 ^ 28),
      Nat.mul_add_div hpow, Nat.div_eq_of_lt he, Nat.add_zero, Nat.mod_eq_of_lt hp]
  · rw [GetECI, hECGI, hmask, nat_and_two_pow_sub_one, Nat.mul_comm p (2 ^ 28),
      Nat.mul_add_mod, Nat.mod_eq_of_lt he,
      Nat.mod_eq_of_lt (lt_trans he (by norm_num))]
  · have hm20 : mask20 >>> 8 = 2 ^ 20 - 1 := by decide
    have hdiv : (b * 2 ^ 8 + c) >>> 8 = b := by
      rw [Nat.shiftRight_eq_div_pow, Nat.mul_comm b (2 ^ 8), Nat.mul_add_div hpow8,
        Nat.div_eq_of_lt hc, Nat.add_zero]
    rw [GetEnbID, hECI, nat_and_shiftRight, hm20, hdiv, nat_and_two_pow_sub_one,
      Nat.mod_eq_of_lt hb, Nat.mod_eq_of_lt (lt_trans hb (by norm_num))]
  · have hff : (0xff : Nat) = 2 ^ 8 - 1 := by decide
    rw [GetCellID, hECI, hff, nat_and_two_pow_sub_one, Nat.mul_comm b (2 ^ 8),
      Nat.mul_add_mod, Nat.mod_eq_of_lt hc, Nat.mod_eq_of_lt hc]

/-- Witness for C10 at PLMN id 314159, ECI 271828, EnbID 777, cell id 42. -/
theorem c10_cell_identity_roundtrip_witness :
    (314159 : Nat) < 2 ^ 32 ∧ (271828 : Nat) < 2 ^ 28 ∧ (777 : Nat) < 2 ^ 20 ∧
      (42 : Nat) < 2 ^ 8 ∧
      (GetPlmnID (ToECGI 314159 271828) = 314159 ∧
        GetECI (ToECGI 314159 271828) = 271828 ∧
        GetEnbID (ToECI 777 42) = 777 ∧ GetCellID (ToECI 777 42) = 42) :=
  ⟨by norm_num, by norm_num, by norm_num, by norm_num,
    c10_cell_identity_roundtrip 314159 271828 777 42 (by norm_num) (by norm_num)
      (by norm_num) (by norm_num)⟩

/-! ### UE registry (`pkg/store/ues/ues.go`)

`model.UE` records are heap-allocated in Go and the registry map, the
returned lists and the watch events all hold pointers to them.  The
embedding makes the heap explicit: a UE pointer is an index (`Nat`) into
`heap`, the registry map `ues` maps an IMSI to such an index, and `MoveUE`
mutates the heap cell in place, so aliasing between the registry and
previously returned values is preserved.  Watcher channels are embedded as
an indexed list of event queues with a closed flag. -/

def minIMSI : Nat := 1000000

def maxIMSI : Nat := 9999999

/-- `model.UECell`: the serving-cell association of a UE (the `Cell`
pointer target); `Strength` is a float64 embedded as an integer since the
code only assigns and compares it. -/
structure UECell where
  id : Nat
  ecgi : Nat
  strength : Int
  deriving DecidableEq

/-- `model.UE` as used by `pkg/store/ues/ues.go`; coordinates and rotation
are float64/number fields embedded as integers (the store only ever writes
the constant 0 into them). -/
structure UE where
  imsi : Nat
  ueType : String
  lat : Int
  lng : Int
  rotation : Int
  cell : UECell
  crnti : Nat
  cells : List UECell
  isAdmitted : Bool
  deriving DecidableEq

/-- Event type constants `NONE`/`ADDED`/`UPDATED`/`DELETED` from
`pkg/store/ues/ues.go`. -/
def NONE : Nat := 0

def ADDED : Nat := 1

def UPDATED : Nat := 2

def DELETED : Nat := 3

/-- `UEEvent`: the event's `UE` field is a pointer, embedded as the heap
index of the record it points to. -/
structure UEEvent where
  ueRef : Nat
  eventType : Nat
  deriving DecidableEq

/-- A watcher channel: the events delivered into it so far, and whether it
has been closed. -/
structure UEChan where
  events : List UEEvent
  closed : Bool
  deriving DecidableEq

/-- `WatchOptions` from `pkg/store/ues/ues.go`. -/
structure WatchOptions where
  replay : Bool
  monitor : Bool
  deriving DecidableEq

/-- The `ueRegistry` state: `heap` is the allocation table of UE records
(indices are never reused, so stale pointers keep denoting the record they
were created for), `ues` is the IMSI-keyed registry map holding pointers,
`watchers` is the list of monitoring channels in registration order, and
`chans` is the table of all channels handed to `WatchUEs`. -/
structure UERegState where
  heap : List (Nat × UE)
  ues : List (Nat × Nat)
  watchers : List Nat
  chans : List UEChan
  deriving DecidableEq

inductive RegErr
  | notFound
  deriving DecidableEq

/-- Append an event to channel `w` (no-op on an unknown channel index,
which never arises for registered watchers). -/
def pushEvent : List UEChan → Nat → UEEvent → List UEChan
  | [], _, _ => []
  | ch :: cs, 0, e => { ch with events := ch.events ++ [e] } :: cs
  | ch :: cs, Nat.succ w, e => ch :: pushEvent cs w e

/-- Mark channel `w` closed. -/
def closeChan : List UEChan → Nat → List UEChan
  | [], _ => []
  | ch :: cs, 0 => { ch with closed := true } :: cs
  | ch :: cs, Nat.succ w => ch :: closeChan cs w

/-- Look up channel `w`. -/
def chanAt : List UEChan → Nat → Option UEChan
  | [], _ => none
  | ch :: _, 0 => some ch
  | _ :: cs, Nat.succ w => chanAt cs w

/-- `ueRegistry.notify`: deliver one event, carrying the UE pointer and the
event type, to every registered watcher in registration order. -/
def notify (st : UERegState) (ueRef : Nat) (eventType : Nat) : UERegState :=
  { st with
    chans := st.watchers.foldl (fun cs w => pushEvent cs w ⟨ueRef, eventType⟩) st.chans }

/-- The random sources consumed by `CreateUEs`, embedded as an oracle of
streams read at an explicit cursor: `imsiDraw` models the successive
outputs of `rand.Int63n(maxIMSI-minIMSI)`, `cellDraw` the ECGI of
`cellStore.GetRandomCell()`, and `strengthDraw` the value
`rand.Float64() * 100` (a float embedded as an integer). -/
structure RandOracle where
  imsiDraw : Nat → Nat
  cellDraw : Nat → Nat
  strengthDraw : Nat → Int

/-- One output of `rand.Int63n(maxIMSI-minIMSI) + minIMSI` at cursor `k`. -/
def drawIMSI (o : RandOracle) (k : Nat) : Nat :=
  o.imsiDraw k % (maxIMSI - minIMSI) + minIMSI

/-- One iteration of the loop body of `ueRegistry.CreateUEs`: draw an IMSI;
if it collides with a live one, draw once more (the drawn replacement is
not re-checked — the `FIXME` in the source); pick a random cell and
strength; store the new UE under its IMSI by Go map assignment (replacing
any existing binding).  Returns the new state and oracle cursor. -/
def createOneUE (st : UERegState) (o : RandOracle) (k i : Nat) : UERegState × Nat :=
  let imsi0 := drawIMSI o k
  let pick : Nat × Nat :=
    if (alookup imsi0 st.ues).isSome then (drawIMSI o (k + 1), k + 2) else (imsi0, k + 1)
  let imsi := pick.1
  let k1 := pick.2
  let ecgi := o.cellDraw k1
  let ue : UE :=
    { imsi := imsi, ueType := "phone", lat := 0, lng := 0, rotation := 0,
      cell := { id := ecgi, ecgi := ecgi, strength := o.strengthDraw k1 },
      crnti := 90125 + i, cells := [], isAdmitted := false }
  let r := st.heap.length
  ({ st with heap := st.heap ++ [(r, ue)], ues := aupdate imsi r st.ues }, k1 + 1)

/-- The loop of `ueRegistry.CreateUEs`, with the loop index `i` explicit
(it feeds the CRNTI `90125 + i`). -/
def createUEsAux : Nat → UERegState → RandOracle → Nat → Nat → UERegState × Nat
  | 0, st, _, k, _ => (st, k)
  | n + 1, st, o, k, i =>
    let p := createOneUE st o k i
    createUEsAux n p.1 o p.2 (i + 1)

/-- `ueRegistry.CreateUEs`. -/
def CreateUEs (st : UERegState) (o : RandOracle) (k count : Nat) : UERegState × Nat :=
  createUEsAux count st o k 0

/-- `ueRegistry.GetUE`: the returned `*model.UE` is the registry-internal
pointer, embedded as the heap index. -/
def GetUE (st : UERegState) (imsi : Nat) : Except RegErr Nat :=
  match alookup imsi st.ues with
  | some r => Except.ok r
  | none => Except.error RegErr.notFound

/-- `ueRegistry.DestroyUE`: remove the binding, notify a DELETED event and
return the removed UE's pointer; `NotFound` when absent. -/
def DestroyUE (st : UERegState) (imsi : Nat) : Except RegErr (Nat × UERegState) :=
  match alookup imsi st.ues with
  | some r => Except.ok (r, notify { st with ues := aremove imsi st.ues } r DELETED)
  | none => Except.error RegErr.notFound

/-- `ueRegistry.MoveUE`: update the serving cell and strength of the UE's
heap record in place and notify an UPDATED event; `NotFound` when absent. -/
def MoveUE (st : UERegState) (imsi ecgi : Nat) (strength : Int) :
    Except RegErr UERegState :=
  match alookup imsi st.ues with
  | some r =>
    match alookup r st.heap with
    | some ue =>
      let ue' := { ue with cell := { ue.cell with ecgi := ecgi, strength := strength } }
      Except.ok (notify { st with heap := aupdate r ue' st.heap } r UPDATED)
    | none => Except.ok (notify st r UPDATED)
  | none => Except.error RegErr.notFound

/-- `ueRegistry.ListAllUEs`: a fresh list of the registry's UE pointers, in
map iteration order. -/
def ListAllUEs (st : UERegState) : List Nat :=
  st.ues.map (fun p => p.2)

/-- `ueRegistry.ListUEs`: the UE pointers whose record's serving cell is
`ecgi`. -/
def ListUEs (st : UERegState) (ecgi : Nat) : List Nat :=
  (st.ues.filter (fun p =>
    match alookup p.2 st.heap with
    | some ue => ue.cell.ecgi == ecgi
    | none => false)).map (fun p => p.2)

/-- `ueRegistry.GetUECount`. -/
def GetUECount (st : UERegState) : Nat :=
  st.ues.length

/-- `ueRegistry.removeSomeUEs`: destroy `count` arbitrary live UEs; the
embedding resolves the arbitrary map iteration order to the registry
list's own order. -/
def removeSomeUEs (st : UERegState) (count : Nat) : UERegState :=
  ((st.ues.map (fun p => p.1)).take count).foldl
    (fun s imsi =>
      match DestroyUE s imsi with
      | Except.ok p => p.2
      | Except.error _ => s)
    st

/-- `ueRegistry.SetUECount`: reconcile the population towards `count` by
creating or destroying the delta. -/
def SetUECount (st : UERegState) (o : RandOracle) (k count : Nat) :
    UERegState × Nat :=
  let delta : Int := (st.ues.length : Int) - (count : Int)
  if delta < 0 then CreateUEs st o k (- delta).toNat
  else if delta > 0 then (removeSomeUEs st delta.toNat, k)
  else (st, k)

/-- `monitor := len(options) == 0 || options[0].Monitor`. -/
def watchMonitor : List WatchOptions → Bool
  | [] => true
  | opt :: _ => opt.monitor

/-- `replay := len(options) > 0 && options[0].Replay`. -/
def watchReplay : List WatchOptions → Bool
  | [] => false
  | opt :: _ => opt.replay

/-- The replay loop of `ueRegistry.WatchUEs`: one NONE-tagged event per
currently held UE, in map iteration order. -/
def replayAll (ch : Nat) : List (Nat × Nat) → List UEChan → List UEChan
  | [], cs => cs
  | p :: rest, cs => replayAll ch rest (pushEvent cs ch ⟨p.2, NONE⟩)

/-- `ueRegistry.WatchUEs`: the caller-supplied channel is allocated an
identity in `chans`; monitoring appends it to the watcher list; replay
drains a snapshot of the current UEs into it, and closes it when only
replay was requested.  Returns the channel's index.  The goroutine's
effects are embedded as completing atomically at the call. -/
def WatchUEs (st : UERegState) (options : List WatchOptions) : UERegState × Nat :=
  let ch := st.chans.length
  let monitor := watchMonitor options
  let replay := watchReplay options
  let st1 : UERegState := { st with chans := st.chans ++ [{ events := [], closed := false }] }
  let st2 : UERegState :=
    if monitor then { st1 with watchers := st1.watchers ++ [ch] } else st1
  if replay then
    let cs := replayAll ch st2.ues st2.chans
    ({ st2 with chans := if monitor then cs else closeChan cs ch }, ch)
  else (st2, ch)

/-! ### KPM service model (`pkg/servicemodel/kpm`)

The handler file is in the sources; its collaborators
`pkg/store/subscriptions` (the Subscription Registry), the `subutils`
request accessors and `getReportPeriod` are declarations of this repository
that are not among the sources, so they are modelled from the spec where
noted.  ASN.1 encoding is an external deterministic capability, so an
encoded header/message is embedded as the field record handed to the
encoder: equal records encode to equal bytes. -/

/-- E2AP RIC action types from the request's action list. -/
inductive RicActionType
  | report
  | insert
  | policy
  deriving DecidableEq

/-- One requested action: its RIC action id and type. -/
structure RicAction where
  actionId : Nat
  actionType : RicActionType
  deriving DecidableEq

/-- The RIC-request causes the handler produces. -/
inductive CauseRicRequest
  | actionNotSupported
  | unspecified
  deriving DecidableEq

/-- Modelled from the spec: a decoded RIC subscription request as read by
the missing `subutils` accessors (`GetRequesterID`, `GetRanFunctionID`,
`GetRicInstanceID`, `GetRicActionToBeSetupList`) and by the missing
`getReportPeriod`; `reportPeriod` is `none` exactly when the report period
fails to parse from the event-trigger definition. -/
structure RicSubRequest where
  reqID : Nat
  ranFuncID : Nat
  ricInstanceID : Nat
  actions : List RicAction
  reportPeriod : Option Nat
  deriving DecidableEq

/-- `subscriptions.NewID`: the Subscription Registry key triple, in the
argument order of the source call sites
(`NewID(ricInstanceID, reqID, ranFuncID)`). -/
structure SubID where
  ricInstanceID : Nat
  reqID : Nat
  ranFuncID : Nat
  deriving DecidableEq

def NewID (ricInstanceID reqID ranFuncID : Nat) : SubID :=
  { ricInstanceID := ricInstanceID, reqID := reqID, ranFuncID := ranFuncID }

/-- Modelled from the spec: the Subscription record stored in the missing
Subscription Registry (`pkg/store/subscriptions`) — the key triple, the
accepted and rejected action sets, and the recurring-timer handle
(embedded as a running flag; `Ticker.Stop()` clears it). -/
structure StoredSub where
  id : SubID
  actionsAccepted : List Nat
  actionsNotAdmitted : List (Nat × CauseRicRequest)
  tickerRunning : Bool
  deriving DecidableEq

/-- Modelled from the spec: the Subscription Registry, a concurrency-safe
map from the key triple to the Subscription record. -/
abbrev SubStore := List (SubID × StoredSub)

/-- Modelled from the spec: Subscription Registry point lookup, `NotFound`
on a miss. -/
def subGet (store : SubStore) (id : SubID) : Except RegErr StoredSub :=
  match alookup id store with
  | some sub => Except.ok sub
  | none => Except.error RegErr.notFound

/-- Modelled from the spec: Subscription Registry create/replace of the
record under its key. -/
def subAdd (store : SubStore) (sub : StoredSub) : SubStore :=
  aupdate sub.id sub store

/-- A subscription success response: the request identifiers plus the
accepted action ids (`BuildSubscriptionResponse`). -/
structure SubscriptionResponse where
  reqID : Nat
  ranFuncID : Nat
  ricInstanceID : Nat
  actionsAccepted : List Nat
  deriving DecidableEq

/-- A subscription failure response carrying its cause
(`BuildSubscriptionFailure`). -/
structure SubscriptionFailure where
  reqID : Nat
  ranFuncID : Nat
  ricInstanceID : Nat
  cause : CauseRicRequest
  deriving DecidableEq

/-- The result tuple of `Client.RICSubscription` together with the
Subscription Registry it leaves behind. -/
structure SubHandlerResult where
  response : Option SubscriptionResponse
  failure : Option SubscriptionFailure
  err : Option RegErr
  store : SubStore

/-- The action-classification loop of `Client.RICSubscription`: actions of
type report are accepted, in request order. -/
def acceptedActions (actions : List RicAction) : List Nat :=
  (actions.filter (fun a => a.actionType == RicActionType.report)).map
    (fun a => a.actionId)

/-- The rejection side of the loop: insert and policy actions are mapped to
the cause "action not supported". -/
def notAdmittedActions (actions : List RicAction) : List (Nat × CauseRicRequest) :=
  (actions.filter (fun a =>
    a.actionType == RicActionType.insert || a.actionType == RicActionType.policy)).map
    (fun a => (a.actionId, CauseRicRequest.actionNotSupported))

/-- `Client.RICSubscription`: classify the requested actions; with zero
accepted actions return a failure response with cause "action not
supported" and a nil error; with an unparseable report period return a
failure response with cause "unspecified" and a nil error; otherwise build
the success response listing the accepted action ids.  Storing the
admitted Subscription under `NewID(ricInstanceID, reqID, ranFuncID)` is
modelled from the spec (the storing caller is not among the sources); the
report task's timer starts running. -/
def RICSubscription (store : SubStore) (req : RicSubRequest) : SubHandlerResult :=
  let accepted := acceptedActions req.actions
  if accepted.isEmpty then
    { response := none,
      failure := some
        { reqID := req.reqID, ranFuncID := req.ranFuncID,
          ricInstanceID := req.ricInstanceID,
          cause := CauseRicRequest.actionNotSupported },
      err := none, store := store }
  else
    match req.reportPeriod with
    | none =>
      { response := none,
        failure := some
          { reqID := req.reqID, ranFuncID := req.ranFuncID,
            ricInstanceID := req.ricInstanceID,
            cause := CauseRicRequest.unspecified },
        err := none, store := store }
    | some _ =>
      let subID := NewID req.ricInstanceID req.reqID req.ranFuncID
      { response := some
          { reqID := req.reqID, ranFuncID := req.ranFuncID,
            ricInstanceID := req.ricInstanceID, actionsAccepted := accepted },
        failure := none, err := none,
        store := subAdd store
          { id := subID, actionsAccepted := accepted,
            actionsNotAdmitted := notAdmittedActions req.actions,
            tickerRunning := true } }

/-- A decoded RIC subscription delete request (the `subdeleteutils`
accessors read the same identifier triple). -/
structure SubDeleteRequest where
  reqID : Nat
  ranFuncID : Nat
  ricInstanceID : Nat
  deriving DecidableEq

/-- A subscription delete success response
(`BuildSubscriptionDeleteResponse`). -/
structure SubscriptionDeleteResponse where
  reqID : Nat
  ranFuncID : Nat
  ricInstanceID : Nat
  deriving DecidableEq

/-- The result tuple of `Client.RICSubscriptionDelete` together with the
Subscription Registry it leaves behind. -/
structure SubDeleteHandlerResult where
  response : Option SubscriptionDeleteResponse
  err : Option RegErr
  store : SubStore

/-- `Client.RICSubscriptionDelete`: derive the key triple, look the
Subscription up (propagating `NotFound` with no response), build the
delete-success response and stop the Subscription's recurring timer.  The
record itself stays in the registry — the code never removes it. -/
def RICSubscriptionDelete (store : SubStore) (req : SubDeleteRequest) :
    SubDeleteHandlerResult :=
  let subID := NewID req.ricInstanceID req.reqID req.ranFuncID
  match subGet store subID with
  | Except.error e => { response := none, err := some e, store := store }
  | Except.ok sub =>
    { response := some
        { reqID := req.reqID, ranFuncID := req.ranFuncID,
          ricInstanceID := req.ricInstanceID },
      err := none,
      store := aupdate subID { sub with tickerRunning := false } store }

/-- The KPM indication header fields handed to the encoder, built once in
`reportIndication` from the node and model identity (with the constant
slice tags "1" and "SD1"). -/
structure KpmIndicationHeader where
  plmnID : Nat
  gnbID : Nat
  sst : String
  sd : String
  plmnIDnrcgi : Nat
  deriving DecidableEq

/-- The KPM indication message fields handed to the encoder: the number of
active UEs. -/
structure KpmIndicationMessage where
  numberOfActiveUes : Nat
  deriving DecidableEq

/-- A full RIC indication as assembled per tick in `reportIndication`:
the subscription's identifiers plus the encoded header and message. -/
structure RicIndication where
  reqID : Nat
  ranFuncID : Nat
  ricInstanceID : Nat
  header : KpmIndicationHeader
  message : KpmIndicationMessage
  deriving DecidableEq

/-- Trace model of `Client.reportIndication`: the indication header is
built once before the loop, and the indication message is also built once
before the loop, from `UEs.Len` read at that moment (`ueCountAtStart`);
each tick then assembles an indication from those fixed bytes.
`ueCountAtTicks` lists the UE registry's live count at each tick — the
loop body never reads it.  The returned list holds the indication sent at
each tick. -/
def reportIndicationTrace (plmnID gnbID reqID ranFuncID ricInstanceID : Nat)
    (ueCountAtStart : Nat) (ueCountAtTicks : List Nat) : List RicIndication :=
  let header : KpmIndicationHeader :=
    { plmnID := plmnID, gnbID := gnbID, sst := "1", sd := "SD1",
      plmnIDnrcgi := plmnID }
  let message : KpmIndicationMessage := { numberOfActiveUes := ueCountAtStart }
  ueCountAtTicks.map (fun _ =>
    { reqID := reqID, ranFuncID := ranFuncID, ricInstanceID := ricInstanceID,
      header := header, message := message })

/-- One timer tick of the report loop as observed through the session: a
running ticker fires and the loop pushes the assembled indication; a
stopped ticker never fires, so nothing is sent. -/
def reportTick (sub : StoredSub) (ind : RicIndication) : Option RicIndication :=
  if sub.tickerRunning then some ind else none

/-! ### Supporting lemmas about channels, notification and lookup -/

/-- Number of occurrences of a channel index in the watcher list. -/
def occCount (w : Nat) : List Nat → Nat
  | [] => 0
  | x :: xs => (if x = w then 1 else 0) + occCount w xs

/-- The state `MoveUE` leaves behind (the input state on failure). -/
def moveResultState (st : UERegState) (imsi ecgi : Nat) (s : Int) : UERegState :=
  match MoveUE st imsi ecgi s with
  | Except.ok st' => st'
  | Except.error _ => st

/-- The state `DestroyUE` leaves behind (the input state on failure). -/
def destroyResultState (st : UERegState) (imsi : Nat) : UERegState :=
  match DestroyUE st imsi with
  | Except.ok p => p.2
  | Except.error _ => st

theorem alookup_mem {κ α : Type} [DecidableEq κ] {k : κ} {v : α} :
    ∀ {l : List (κ × α)}, alookup k l = some v → (k, v) ∈ l := by
  intro l
  induction l with
  | nil => intro h; simp [alookup] at h
  | cons p rest ih =>
    intro h
    rw [alookup] at h
    by_cases hk : k = p.1
    · simp [hk] at h
      subst h
      subst hk
      exact List.mem_cons_self _ _
    · simp [hk] at h
      exact List.mem_cons_of_mem _ (ih h)

theorem chanAt_pushEvent_self :
    ∀ (cs : List UEChan) (w : Nat) (e : UEEvent) (c : UEChan),
      chanAt cs w = some c →
      chanAt (pushEvent cs w e) w = some { c with events := c.events ++ [e] } := by
  intro cs
  induction cs with
  | nil => intro w e c h; simp [chanAt] at h
  | cons ch rest ih =>
    intro w e c h
    cases w with
    | zero =>
      rw [chanAt] at h
      cases h
      rfl
    | succ w' => exact ih w' e c h

theorem chanAt_pushEvent_ne :
    ∀ (cs : List UEChan) (x w : Nat) (e : UEEvent), x ≠ w →
      chanAt (pushEvent cs x e) w = chanAt cs w := by
  intro cs
  induction cs with
  | nil => intro x w e _; cases x <;> rfl
  | cons ch rest ih =>
    intro x w e hxw
    cases x with
    | zero =>
      cases w with
      | zero => exact absurd rfl hxw
      | succ w' => rfl
    | succ x' =>
      cases w with
      | zero => rfl
      | succ w' => exact ih x' w' e (fun h => hxw (by rw [h]))

theorem chanAt_foldl_pushEvent :
    ∀ (ws : List Nat) (cs : List UEChan) (c : UEChan) (w : Nat) (e : UEEvent),
      chanAt cs w = some c →
      chanAt (ws.foldl (fun acc x => pushEvent acc x e) cs) w =
        some { c with events := c.events ++ List.replicate (occCount w ws) e } := by
  intro ws
  induction ws with
  | nil =>
    intro cs c w e h
    simpa [occCount] using h
  | cons x xs ih =>
    intro cs c w e h
    by_cases hx : x = w
    · subst hx
      have h1 := chanAt_pushEvent_self cs x e c h
      have h2 := ih (pushEvent cs x e) { c with events := c.events ++ [e] } x e h1
      have hocc : occCount x (x :: xs) = occCount x xs + 1 := by
        simp [occCount, Nat.add_comm]
      rw [List.foldl_cons, h2, hocc, List.replicate_succ]
      simp
    · have h1 : chanAt (pushEvent cs x e) w = some c := by
        rw [chanAt_pushEvent_ne cs x w e hx, h]
      have h2 := ih (pushEvent cs x e) c w e h1
      rw [List.foldl_cons, h2]
      simp [occCount, hx]

theorem chanAt_notify (st : UERegState) (r t w : Nat) (c : UEChan)
    (hocc : occCount w st.watchers = 1) (hch : chanAt st.chans w = some c) :
    chanAt (notify st r t).chans w =
      some { c with events := c.events ++ [⟨r, t⟩] } := by
  have h := chanAt_foldl_pushEvent st.watchers st.chans c w ⟨r, t⟩ hch
  rw [notify]
  rw [h, hocc]
  rfl

theorem chanAt_closeChan_self :
    ∀ (cs : List UEChan) (w : Nat) (c : UEChan),
      chanAt cs w = some c →
      chanAt (closeChan cs w) w = some { c with closed := true } := by
  intro cs
  induction cs with
  | nil => intro w c h; simp [chanAt] at h
  | cons ch rest ih =>
    intro w c h
    cases w with
    | zero =>
      rw [chanAt] at h
      cases h
      rfl
    | succ w' => exact ih w' c h

theorem chanAt_append_singleton :
    ∀ (cs : List UEChan) (c : UEChan), chanAt (cs ++ [c]) cs.length = some c := by
  intro cs
  induction cs with
  | nil => intro c; rfl
  | cons ch rest ih => intro c; exact ih c

theorem chanAt_replayAll (ch : Nat) :
    ∀ (l : List (Nat × Nat)) (cs : List UEChan) (c : UEChan),
      chanAt cs ch = some c →
      chanAt (replayAll ch l cs) ch =
        some { c with events := c.events ++ l.map (fun p => (⟨p.2, NONE⟩ : UEEvent)) } := by
  intro l
  induction l with
  | nil =>
    intro cs c h
    simpa [replayAll] using h
  | cons p rest ih =>
    intro cs c h
    have h1 := chanAt_pushEvent_self cs ch ⟨p.2, NONE⟩ c h
    have h2 := ih (pushEvent cs ch ⟨p.2, NONE⟩) { c with events := c.events ++ [⟨p.2, NONE⟩] } h1
    rw [replayAll, h2]
    simp

theorem createUEsAux_chans :
    ∀ (n : Nat) (st : UERegState) (o : RandOracle) (k i : Nat),
      ((createUEsAux n st o k i).1.chans = st.chans ∧
        (createUEsAux n st o k i).1.watchers = st.watchers) := by
  intro n
  induction n with
  | zero => intro st o k i; exact ⟨rfl, rfl⟩
  | succ n' ih =>
    intro st o k i
    rw [createUEsAux]
    exact ih (createOneUE st o k i).1 o (createOneUE st o k i).2 (i + 1)

theorem alookup_of_subGet_ok {store : SubStore} {id : SubID} {sub : StoredSub}
    (h : subGet store id = Except.ok sub) : alookup id store = some sub := by
  rw [subGet] at h
  cases halook : alookup id store with
  | none => rw [halook] at h; exact absurd h (by simp)
  | some s => rw [halook] at h; cases h; rfl

theorem alookup_of_subGet_err {store : SubStore} {id : SubID}
    (h : subGet store id = Except.error RegErr.notFound) : alookup id store = none := by
  rw [subGet] at h
  cases halook : alookup id store with
  | none => rfl
  | some s => rw [halook] at h; exact absurd h (by simp)

/-! ### Claim theorems -/

/-- C1: a subscribe request with at least one report action and a
parseable report period makes `RICSubscription` return a
subscription-success response (failure and error both nil) listing the
accepted action ids, and the Subscription stored under the key triple
derived from the request is subsequently retrievable: the registry lookup
does not fail with NotFound. -/
theorem c1_subscribe_success (store : SubStore) (req : RicSubRequest) (p : Nat)
    (hrep : ∃ a ∈ req.actions, a.actionType = RicActionType.report)
    (hper : req.reportPeriod = some p) :
    (RICSubscription store req).response =
      some { reqID := req.reqID, ranFuncID := req.ranFuncID,
             ricInstanceID := req.ricInstanceID,
             actionsAccepted := acceptedActions req.actions } ∧
      (RICSubscription store req).failure = none ∧
      (RICSubscription store req).err = none ∧
      subGet (RICSubscription store req).store
          (NewID req.ricInstanceID req.reqID req.ranFuncID) ≠
        Except.error RegErr.notFound := by
  obtain ⟨a, ha, hat⟩ := hrep
  have hmem : a.actionId ∈ acceptedActions req.actions := by
    apply List.mem_map_of_mem
    exact List.mem_filter.mpr ⟨ha, by simp [hat]⟩
  have hne : acceptedActions req.actions ≠ [] := by
    intro hnil
    rw [hnil] at hmem
    exact absurd hmem (List.not_mem_nil _)
  have hempty : (acceptedActions req.actions).isEmpty = false := by
    cases hacc : acceptedActions req.actions with
    | nil => exact absurd hacc hne
    | cons x xs => rfl
  refine ⟨?_, ?_, ?_, ?_⟩ <;>
    simp [RICSubscription, hempty, hper, subGet, subAdd, NewID, alookup_aupdate_self]

/-- A concrete subscribe request with one report action and one insert
action and report period 20, for the C1 witness. -/
def reqC1 : RicSubRequest :=
  { reqID := 1, ranFuncID := 2, ricInstanceID := 3,
    actions := [⟨10, RicActionType.report⟩, ⟨11, RicActionType.insert⟩],
    reportPeriod := some 20 }

/-- Witness for C1: the admitted request yields a success response listing
action 10 and the stored Subscription is retrievable. -/
theorem c1_subscribe_success_witness :
    (RICSubscription [] reqC1).response = some ⟨1, 2, 3, [10]⟩ ∧
      (RICSubscription [] reqC1).failure = none ∧
      (RICSubscription [] reqC1).err = none ∧
      subGet (RICSubscription [] reqC1).store (NewID 3 1 2) ≠
        Except.error RegErr.notFound := by
  have h := c1_subscribe_success [] reqC1 20
    ⟨⟨10, RicActionType.report⟩, by simp [reqC1], rfl⟩ rfl
  simpa [reqC1, acceptedActions, NewID] using h

/-- C5: a subscribe request whose actions are all insert or policy is
answered by `RICSubscription` with a subscription-failure response carrying
cause "action not supported" and a nil error; the Subscription Registry is
left unchanged, so a lookup of the derived key (absent beforehand) still
fails with NotFound. -/
theorem c5_subscribe_all_unsupported (store : SubStore) (req : RicSubRequest)
    (hall : ∀ a ∈ req.actions, a.actionType = RicActionType.insert ∨
      a.actionType = RicActionType.policy)
    (habsent : subGet store (NewID req.ricInstanceID req.reqID req.ranFuncID) =
      Except.error RegErr.notFound) :
    (RICSubscription store req).response = none ∧
      (RICSubscription store req).failure = some
        { reqID := req.reqID, ranFuncID := req.ranFuncID,
          ricInstanceID := req.ricInstanceID,
          cause := CauseRicRequest.actionNotSupported } ∧
      (RICSubscription store req).err = none ∧
      (RICSubscription store req).store = store ∧
      subGet (RICSubscription store req).store
          (NewID req.ricInstanceID req.reqID req.ranFuncID) =
        Except.error RegErr.notFound := by
  have hfil : req.actions.filter (fun a => a.actionType == RicActionType.report) = [] := by
    rw [List.filter_eq_nil_iff]
    intro a ha
    rcases hall a ha with h | h <;> simp [h]
  have hempty : (acceptedActions req.actions).isEmpty = true := by
    simp [acceptedActions, hfil]
  refine ⟨?_, ?_, ?_, ?_, ?_⟩ <;> simp [RICSubscription, hempty, habsent]

/-- A concrete subscribe request carrying only insert and policy actions,
for the C5 witness. -/
def reqC5 : RicSubRequest :=
  { reqID := 1, ranFuncID := 2, ricInstanceID := 3,
    actions := [⟨11, RicActionType.insert⟩, ⟨12, RicActionType.policy⟩],
    reportPeriod := some 20 }

/-- Witness for C5: the all-unsupported request yields the
"action not supported" failure and creates no Subscription. -/
theorem c5_subscribe_all_unsupported_witness :
    (RICSubscription [] reqC5).response = none ∧
      (RICSubscription [] reqC5).failure =
        some ⟨1, 2, 3, CauseRicRequest.actionNotSupported⟩ ∧
      (RICSubscription [] reqC5).err = none ∧
      (RICSubscription [] reqC5).store = [] ∧
      subGet (RICSubscription [] reqC5).store (NewID 3 1 2) =
        Except.error RegErr.notFound := by
  have h := c5_subscribe_all_unsupported [] reqC5
    (by
      intro a ha
      simp [reqC5] at ha
      rcases ha with h | h <;> subst h <;> simp)
    rfl
  simpa [reqC5, NewID] using h

/-- C6: `RICSubscriptionDelete` on an existing key returns a
delete-success response with a nil error and stops that Subscription's
recurring timer, after which a report tick emits nothing; on an absent key
it fails with NotFound and returns no response, leaving the registry
unchanged. -/
theorem c6_subscription_delete (store : SubStore) (req : SubDeleteRequest) :
    (∀ sub, subGet store (NewID req.ricInstanceID req.reqID req.ranFuncID) =
        Except.ok sub →
      (RICSubscriptionDelete store req).response = some
        { reqID := req.reqID, ranFuncID := req.ranFuncID,
          ricInstanceID := req.ricInstanceID } ∧
      (RICSubscriptionDelete store req).err = none ∧
      subGet (RICSubscriptionDelete store req).store
          (NewID req.ricInstanceID req.reqID req.ranFuncID) =
        Except.ok { sub with tickerRunning := false } ∧
      ∀ ind, reportTick { sub with tickerRunning := false } ind = none) ∧
    (subGet store (NewID req.ricInstanceID req.reqID req.ranFuncID) =
        Except.error RegErr.notFound →
      (RICSubscriptionDelete store req).response = none ∧
      (RICSubscriptionDelete store req).err = some RegErr.notFound ∧
      (RICSubscriptionDelete store req).store = store) := by
  constructor
  · intro sub hsub
    have halook := alookup_of_subGet_ok hsub
    refine ⟨?_, ?_, ?_, ?_⟩ <;>
      simp [RICSubscriptionDelete, subGet, halook, alookup_aupdate_self, reportTick]
  · intro habs
    have halook := alookup_of_subGet_err habs
    refine ⟨?_, ?_, ?_⟩ <;> simp [RICSubscriptionDelete, subGet, halook]

/-- A stored Subscription under key (3, 1, 2) with a running timer, for
the C6 witness. -/
def subC6 : StoredSub :=
  { id := ⟨3, 1, 2⟩, actionsAccepted := [10], actionsNotAdmitted := [],
    tickerRunning := true }

/-- A concrete indication, for exercising the stopped-timer tick. -/
def indC6 : RicIndication :=
  { reqID := 1, ranFuncID := 2, ricInstanceID := 3,
    header := ⟨1, 2, "1", "SD1", 1⟩, message := ⟨5⟩ }

/-- Witness for C6: deleting key (3,1,2) from a registry holding it
succeeds and stops the timer (a tick then emits nothing); deleting from an
empty registry fails with NotFound. -/
theorem c6_subscription_delete_witness :
    (RICSubscriptionDelete [(⟨3, 1, 2⟩, subC6)] ⟨1, 2, 3⟩).response =
        some ⟨1, 2, 3⟩ ∧
      (RICSubscriptionDelete [(⟨3, 1, 2⟩, subC6)] ⟨1, 2, 3⟩).err = none ∧
      subGet (RICSubscriptionDelete [(⟨3, 1, 2⟩, subC6)] ⟨1, 2, 3⟩).store
          (NewID 3 1 2) =
        Except.ok { subC6 with tickerRunning := false } ∧
      reportTick { subC6 with tickerRunning := false } indC6 = none ∧
      (RICSubscriptionDelete [] ⟨1, 2, 3⟩).response = none ∧
      (RICSubscriptionDelete [] ⟨1, 2, 3⟩).err = some RegErr.notFound := by
  have h1 := (c6_subscription_delete [(⟨3, 1, 2⟩, subC6)] ⟨1, 2, 3⟩).1 subC6 rfl
  have h2 := (c6_subscription_delete [] ⟨1, 2, 3⟩).2 rfl
  exact ⟨h1.1, h1.2.1, h1.2.2.1, h1.2.2.2 indC6, h2.1, h2.2.1⟩

/-- C2 counterexample: in `reportIndication` the indication message is
built once before the tick loop from the UE count at task start (here 5),
so two ticks between which the live UE count changes from 5 to 7 both
carry the payload 5 — they do not carry different payloads as the claim
states. -/
theorem c2_counterexample :
    (reportIndicationTrace 1 2 3 4 5 5 [5, 7]).map
        (fun ind => ind.message.numberOfActiveUes) = [5, 5] ∧
      (5 : Nat) ≠ 7 := by
  exact ⟨rfl, by decide⟩

/-- C2 amended: the report task builds the indication header exactly once
for the life of the subscription, and builds the indication message
payload exactly once as well, at task start, from the UE count read then;
every tick carries that same fixed header and payload, so ticks separated
by a UE-population change still carry identical payloads. -/
theorem c2_report_payload_fixed
    (plmnID gnbID reqID ranFuncID ricInstanceID start : Nat)
    (ticks : List Nat) (ind : RicIndication)
    (h : ind ∈ reportIndicationTrace plmnID gnbID reqID ranFuncID ricInstanceID
      start ticks) :
    ind.header =
        { plmnID := plmnID, gnbID := gnbID, sst := "1", sd := "SD1",
          plmnIDnrcgi := plmnID } ∧
      ind.message = { numberOfActiveUes := start } := by
  rw [reportIndicationTrace] at h
  simp only [List.mem_map] at h
  obtain ⟨x, _, heq⟩ := h
  rw [← heq]
  exact ⟨rfl, rfl⟩

/-- Witness for the amended C2 at the counterexample's trace: the
indication sent at every tick carries the start-time count 5. -/
theorem c2_report_payload_fixed_witness :
    (⟨3, 4, 5, ⟨1, 2, "1", "SD1", 1⟩, ⟨5⟩⟩ : RicIndication).header =
        ⟨1, 2, "1", "SD1", 1⟩ ∧
      (⟨3, 4, 5, ⟨1, 2, "1", "SD1", 1⟩, ⟨5⟩⟩ : RicIndication).message = ⟨5⟩ :=
  c2_report_payload_fixed 1 2 3 4 5 5 [5, 7] _ (by decide)

/-- A live UE with IMSI 1000000 at heap index 0, the pre-existing
population for the C3 and C4 failing inputs. -/
def ueA : UE :=
  { imsi := 1000000, ueType := "phone", lat := 0, lng := 0, rotation := 0,
    cell := { id := 7, ecgi := 7, strength := 50 }, crnti := 90125,
    cells := [], isAdmitted := false }

/-- A registry holding exactly the UE with IMSI 1000000. -/
def stOneUE : UERegState :=
  { heap := [(0, ueA)], ues := [(1000000, 0)], watchers := [], chans := [] }

/-- An oracle whose IMSI stream always draws the value that maps to IMSI
1000000 (`0 % (maxIMSI-minIMSI) + minIMSI`). -/
def collideOracle : RandOracle :=
  { imsiDraw := fun _ => 0, cellDraw := fun _ => 7, strengthDraw := fun _ => 50 }

/-- C3 failing-input exhibit: from a population of one UE with IMSI
1000000, `SetUECount 2` under the always-colliding oracle draws 1000000,
redraws 1000000 without re-checking (the source's FIXME), overwrites the
existing binding and leaves the population at 1 instead of 2 — the
claimed `setCount(n)` exactness fails on the code. -/
theorem c3_setUECount_not_exact :
    GetUECount (SetUECount stOneUE collideOracle 0 2).1 = 1 ∧ (1 : Nat) ≠ 2 := by
  exact ⟨by decide, by decide⟩

/-- C4 failing-input exhibit: with IMSI 1000000 live, `CreateUEs 1` under
the always-colliding oracle draws 1000000, retries exactly once, draws
1000000 again and silently replaces the live binding (the map now points
to the fresh record at heap index 1; the old record at index 0 is
orphaned); the population does not grow and no error is reported — the
claimed retry-until-unused, never-overwrite behaviour fails on the code. -/
theorem c4_createUEs_silent_overwrite :
    alookup 1000000 stOneUE.ues = some 0 ∧
      alookup 1000000 (CreateUEs stOneUE collideOracle 0 1).1.ues = some 1 ∧
      GetUECount (CreateUEs stOneUE collideOracle 0 1).1 = 1 := by
  exact ⟨by decide, by decide, by decide⟩

/-- The in-place update `MoveUE` performs on a UE record: exactly the
serving-cell and signal-strength fields change; every other field,
including the cell's id, is kept. -/
def movedUE (ue : UE) (ecgi : Nat) (s : Int) : UE :=
  { ue with cell := { ue.cell with ecgi := ecgi, strength := s } }

theorem moveUE_ok (st : UERegState) {imsi r : Nat} {ue : UE} (ecgi : Nat) (s : Int)
    (h1 : alookup imsi st.ues = some r) (h2 : alookup r st.heap = some ue) :
    MoveUE st imsi ecgi s = Except.ok (notify
      { st with heap := aupdate r (movedUE ue ecgi s) st.heap } r UPDATED) := by
  simp only [MoveUE, h1, h2]
  rfl

theorem destroyUE_ok (st : UERegState) {imsi r : Nat}
    (h1 : alookup imsi st.ues = some r) :
    DestroyUE st imsi = Except.ok
      (r, notify { st with ues := aremove imsi st.ues } r DELETED) := by
  simp only [DestroyUE, h1]

/-- C8: for a live UE, `MoveUE` updates exactly the serving-cell and
signal-strength fields of that UE's record (IMSI, type, location,
rotation, CRNTI, admission flag and the rest of the heap are unchanged,
as is the registry map), and delivers exactly one UPDATED event to each
watcher registered once; on an absent IMSI it fails with NotFound and
produces no new state. -/
theorem c8_moveUE_frame (st : UERegState) (imsi ecgi : Nat) (s : Int) :
    (∀ r ue, alookup imsi st.ues = some r → alookup r st.heap = some ue →
      MoveUE st imsi ecgi s = Except.ok (moveResultState st imsi ecgi s) ∧
      (moveResultState st imsi ecgi s).ues = st.ues ∧
      (moveResultState st imsi ecgi s).heap =
        aupdate r (movedUE ue ecgi s) st.heap ∧
      (moveResultState st imsi ecgi s).watchers = st.watchers ∧
      ∀ w c, occCount w st.watchers = 1 → chanAt st.chans w = some c →
        chanAt (moveResultState st imsi ecgi s).chans w =
          some { c with events := c.events ++ [⟨r, UPDATED⟩] }) ∧
    (alookup imsi st.ues = none →
      MoveUE st imsi ecgi s = Except.error RegErr.notFound) := by
  constructor
  · intro r ue h1 h2
    have hmv := moveUE_ok st ecgi s h1 h2
    have hres : moveResultState st imsi ecgi s = notify
        { st with heap := aupdate r (movedUE ue ecgi s) st.heap } r UPDATED := by
      rw [moveResultState, hmv]
    refine ⟨by rw [hmv, hres], ?_, ?_, ?_, ?_⟩
    · rw [hres]; rfl
    · rw [hres]; rfl
    · rw [hres]; rfl
    · intro w c hocc hch
      rw [hres]
      exact chanAt_notify _ r UPDATED w c hocc hch
  · intro h1
    simp only [MoveUE, h1]

/-- A registry holding the UE with IMSI 1000000 and one monitoring watcher
on channel 0, for the C7 and C8 witnesses. -/
def stC8 : UERegState :=
  { heap := [(0, ueA)], ues := [(1000000, 0)], watchers := [0],
    chans := [{ events := [], closed := false }] }

/-- Witness for C8 at the one-UE registry with one watcher: moving IMSI
1000000 to cell 20 with strength 60 succeeds, rewrites only the cell
fields, delivers one UPDATED event on channel 0; moving the absent IMSI
1000001 fails with NotFound. -/
theorem c8_moveUE_frame_witness :
    MoveUE stC8 1000000 20 60 = Except.ok (moveResultState stC8 1000000 20 60) ∧
      (moveResultState stC8 1000000 20 60).ues = stC8.ues ∧
      (moveResultState stC8 1000000 20 60).heap =
        aupdate 0 (movedUE ueA 20 60) stC8.heap ∧
      (moveResultState stC8 1000000 20 60).watchers = stC8.watchers ∧
      chanAt (moveResultState stC8 1000000 20 60).chans 0 =
        some { events := [⟨0, UPDATED⟩], closed := false } ∧
      MoveUE stC8 1000001 20 60 = Except.error RegErr.notFound := by
  have h := (c8_moveUE_frame stC8 1000000 20 60).1 0 ueA (by decide) (by decide)
  have habs := (c8_moveUE_frame stC8 1000001 20 60).2 (by decide)
  have hch := h.2.2.2.2 0 { events := [], closed := false } (by decide) (by decide)
  exact ⟨h.1, h.2.1, h.2.2.1, h.2.2.2.1, hch, habs⟩

/-- C9 counterexample: `ListAllUEs` returns the registry's internal UE
pointer (heap index 0); after `MoveUE` the record that pointer denotes has
serving cell 20 instead of 7, so the mutation does alter the contents of a
previously returned list element — the returned data are not detached
copies as the claim states. -/
theorem c9_counterexample :
    ListAllUEs stOneUE = [0] ∧
      (alookup 0 stOneUE.heap).map (fun u => u.cell.ecgi) = some 7 ∧
      MoveUE stOneUE 1000000 20 60 =
        Except.ok (moveResultState stOneUE 1000000 20 60) ∧
      (alookup 0 (moveResultState stOneUE 1000000 20 60).heap).map
          (fun u => u.cell.ecgi) = some 20 ∧
      (7 : Nat) ≠ 20 := by
  exact ⟨by decide, by decide, rfl, by decide, by decide⟩

/-- C9 amended: `ListAllUEs` (and `GetUE`) return the registry's internal
UE pointers, not detached copies: the returned list is itself a fresh
sequence whose spine later mutations do not change, but a subsequent
`MoveUE` through the registry is visible through a previously returned
element, which then dereferences to the updated record. -/
theorem c9_returned_pointers_alias (st : UERegState) (imsi r ecgi : Nat) (s : Int)
    (ue : UE) (h1 : alookup imsi st.ues = some r)
    (h2 : alookup r st.heap = some ue) :
    r ∈ ListAllUEs st ∧
      MoveUE st imsi ecgi s = Except.ok (moveResultState st imsi ecgi s) ∧
      alookup r (moveResultState st imsi ecgi s).heap = some (movedUE ue ecgi s) ∧
      ListAllUEs (moveResultState st imsi ecgi s) = ListAllUEs st := by
  have hmv := moveUE_ok st ecgi s h1 h2
  have hres : moveResultState st imsi ecgi s = notify
      { st with heap := aupdate r (movedUE ue ecgi s) st.heap } r UPDATED := by
    rw [moveResultState, hmv]
  refine ⟨?_, by rw [hmv, hres], ?_, ?_⟩
  · exact List.mem_map_of_mem _ (alookup_mem h1)
  · rw [hres]
    exact alookup_aupdate_self r _ st.heap
  · rw [hres]; rfl

/-- Witness for the amended C9 at the one-UE registry: pointer 0 was
returned by `ListAllUEs` and dereferences to the moved record afterwards. -/
theorem c9_returned_pointers_alias_witness :
    0 ∈ ListAllUEs stOneUE ∧
      MoveUE stOneUE 1000000 20 60 =
        Except.ok (moveResultState stOneUE 1000000 20 60) ∧
      alookup 0 (moveResultState stOneUE 1000000 20 60).heap =
        some (movedUE ueA 20 60) ∧
      ListAllUEs (moveResultState stOneUE 1000000 20 60) = ListAllUEs stOneUE :=
  c9_returned_pointers_alias stOneUE 1000000 0 20 60 ueA (by decide) (by decide)

/-- C7 counterexample: a monitoring watcher (channel 0) is registered on
an empty registry; `CreateUEs 1` then mutates the registry (the count goes
from 0 to 1) but delivers no event at all — `CreateUEs` never notifies, so
the watcher does not receive one ADDED/UPDATED/DELETED event per mutating
call as the claim states. -/
theorem c7_counterexample :
    (WatchUEs ⟨[], [], [], []⟩ [⟨false, true⟩]).1.watchers = [0] ∧
      GetUECount ⟨[], [], [], []⟩ = 0 ∧
      GetUECount (CreateUEs (WatchUEs ⟨[], [], [], []⟩ [⟨false, true⟩]).1
        collideOracle 0 1).1 = 1 ∧
      chanAt (CreateUEs (WatchUEs ⟨[], [], [], []⟩ [⟨false, true⟩]).1
          collideOracle 0 1).1.chans 0 =
        some { events := [], closed := false } := by
  exact ⟨by decide, by decide, by decide, by decide⟩

/-- C7 amended: a watch with `replay=true, monitor=false` delivers exactly
one NONE-tagged event per UE held at the call and closes the sink, without
registering it; a watch with `monitor=true` appends the sink to the
watcher list; a sink registered once then receives exactly one DELETED
event per destroy of a live UE and exactly one UPDATED event per move of a
live UE, appended in invocation order, while UE creation delivers no
events (the registry never emits ADDED). -/
theorem c7_watch_semantics (st : UERegState) :
    (chanAt (WatchUEs st [⟨true, false⟩]).1.chans
        (WatchUEs st [⟨true, false⟩]).2 =
      some { events := st.ues.map (fun p => (⟨p.2, NONE⟩ : UEEvent)),
             closed := true } ∧
      (WatchUEs st [⟨true, false⟩]).1.watchers = st.watchers) ∧
    ((WatchUEs st [⟨false, true⟩]).1.watchers = st.watchers ++ [st.chans.length] ∧
      chanAt (WatchUEs st [⟨false, true⟩]).1.chans
          (WatchUEs st [⟨false, true⟩]).2 =
        some { events := [], closed := false }) ∧
    (∀ w c, occCount w st.watchers = 1 → chanAt st.chans w = some c →
      (∀ imsi r, alookup imsi st.ues = some r →
        DestroyUE st imsi = Except.ok (r, destroyResultState st imsi) ∧
        chanAt (destroyResultState st imsi).chans w =
          some { c with events := c.events ++ [⟨r, DELETED⟩] }) ∧
      (∀ imsi r ecgi s, alookup imsi st.ues = some r →
        chanAt (moveResultState st imsi ecgi s).chans w =
          some { c with events := c.events ++ [⟨r, UPDATED⟩] }) ∧
      (∀ o k n, (CreateUEs st o k n).1.chans = st.chans)) := by
  refine ⟨⟨?_, ?_⟩, ⟨?_, ?_⟩, ?_⟩
  · have hfresh := chanAt_append_singleton st.chans { events := [], closed := false }
    have hrep := chanAt_replayAll st.chans.length st.ues
      (st.chans ++ [{ events := [], closed := false }])
      { events := [], closed := false } hfresh
    have hcl := chanAt_closeChan_self _ st.chans.length _ hrep
    simpa using hcl
  · rfl
  · rfl
  · exact chanAt_append_singleton st.chans { events := [], closed := false }
  · intro w c hocc hch
    refine ⟨?_, ?_, ?_⟩
    · intro imsi r h1
      have hd := destroyUE_ok st h1
      have hres : destroyResultState st imsi =
          notify { st with ues := aremove imsi st.ues } r DELETED := by
        rw [destroyResultState, hd]
      exact ⟨by rw [hd, hres], by rw [hres]; exact chanAt_notify _ r DELETED w c hocc hch⟩
    · intro imsi r ecgi s h1
      cases hh : alookup r st.heap with
      | some ue =>
        have hmv := moveUE_ok st ecgi s h1 hh
        have hres : moveResultState st imsi ecgi s =
            notify { st with heap := aupdate r (movedUE ue ecgi s) st.heap } r UPDATED := by
          rw [moveResultState, hmv]
        rw [hres]
        exact chanAt_notify _ r UPDATED w c hocc hch
      | none =>
        have hmv : MoveUE st imsi ecgi s = Except.ok (notify st r UPDATED) := by
          simp only [MoveUE, h1, hh]
        have hres : moveResultState st imsi ecgi s = notify st r UPDATED := by
          rw [moveResultState, hmv]
        rw [hres]
        exact chanAt_notify st r UPDATED w c hocc hch
    · intro o k n
      exact (createUEsAux_chans n st o k 0).1

/-- Witness for the amended C7: a replay-only watch on the one-UE registry
delivers one NONE event for pointer 0 and closes; a monitor watch is
registered; on the watched registry destroy and move each deliver exactly
one DELETED/UPDATED event on channel 0, while a create delivers none. -/
theorem c7_watch_semantics_witness :
    chanAt (WatchUEs stOneUE [⟨true, false⟩]).1.chans
        (WatchUEs stOneUE [⟨true, false⟩]).2 =
      some { events := [⟨0, NONE⟩], closed := true } ∧
      (WatchUEs stOneUE [⟨false, true⟩]).1.watchers = [0] ∧
      DestroyUE stC8 1000000 = Except.ok (0, destroyResultState stC8 1000000) ∧
      chanAt (destroyResultState stC8 1000000).chans 0 =
        some { events := [⟨0, DELETED⟩], closed := false } ∧
      chanAt (moveResultState stC8 1000000 20 60).chans 0 =
        some { events := [⟨0, UPDATED⟩], closed := false } ∧
      (CreateUEs stC8 collideOracle 0 1).1.chans = stC8.chans := by
  have h1 := c7_watch_semantics stOneUE
  have h8 := (c7_watch_semantics stC8).2.2 0 { events := [], closed := false }
    (by decide) (by decide)
  have hdes := h8.1 1000000 0 (by decide)
  exact ⟨h1.1.1, h1.2.1.1, hdes.1, hdes.2, h8.2.1 1000000 0 20 60 (by decide),
    h8.2.2 collideOracle 0 1⟩

end RanSim
